import Mathlib

/-!
Verification of the "Network Diagnostics Utilities" module (`src/common/network.py`).

Every function of the module is a thin wrapper around an external facility
(spawning the `ping` executable, opening a TCP/UDP socket, issuing an HTTP
GET, reading `uuid.getnode()`).  We embed the module shallowly: the external
world is an explicit `Env` structure recording, for each facility, the outcome
the operating system would deliver, and each Python function becomes a total
Lean function over `Env`.  Python exceptions raised by a facility are modelled
as explicit failure outcomes in `Env` (e.g. `Option`, `RunResult.err`); since
every function of the module catches all exceptions locally and converts them
to sentinel values, the embedded functions are total and "never raises" is
expressed by totality over all environments.

Python `int` parameters (counts, ports, timeouts) are modelled as `Int`.
The two `float` timeouts are also modelled as `Int`: they are only ever
passed through to the environment (as part of the spawned command line or of
a socket call), never used arithmetically in a way any claim depends on.
Python dicts are modelled as insertion-ordered association lists with
overwrite-on-existing-key semantics (`dictSet`).
-/

/-- Outcome of `subprocess.run(args, capture_output=True, text=True, timeout=...)`:
either the process completed (with a return code, stdout and stderr), or the
`timeout` expired (`subprocess.TimeoutExpired`), or some other exception was
raised (carrying its `str(e)` text). -/
inductive RunResult where
  | completed (returncode : Int) (stdout stderr : String)
  | timedOut
  | err (msg : String)
deriving DecidableEq

/-- Outcome of `json.loads(data)` followed by `obj.get("ip")` on the JSON
endpoint's response: either parsing (or `.get`) raised, or it parsed and the
`"ip"` field is absent / `None`, or it parsed to a string value. -/
inductive JsonIpResult where
  | parseError
  | missing
  | value (s : String)
deriving DecidableEq

/-- The external world as observed by the module. -/
structure Env where
  /-- `shutil.which("ping") is not None`. -/
  pingAvailable : Bool
  /-- `platform.system().lower() == "windows"`. -/
  isWindows : Bool
  /-- `subprocess.run args timeout` outcome, as a function of the argument
  list and of the `timeout=` value handed to `subprocess.run`. -/
  run : List String → Int → RunResult
  /-- Whether `socket.create_connection((host, port), timeout)` succeeds
  (`false` means it raised). -/
  connect : String → Int → Int → Bool
  /-- Result of the UDP-socket dance of `get_local_ip`: `s.getsockname()[0]`
  on an `AF_INET` socket is the socket's bound IPv4 address, which the
  operating system always reports as four octets rendered as a dotted quad
  (this OS guarantee is modelled in the type); `none` means some step
  raised. -/
  localIp : Option (Fin 256 × Fin 256 × Fin 256 × Fin 256)
  /-- `urllib.request.urlopen(url, timeout)` followed by `.read().decode()`:
  `some raw` is the decoded text (before `.strip()`), `none` means one of the
  steps raised. -/
  fetch : String → Int → Option String
  /-- JSON `"ip"`-field extraction outcome for a given response text. -/
  jsonIp : String → JsonIpResult
  /-- `uuid.getnode()`: `some mac` is the returned non-negative integer,
  `none` means it raised. -/
  getnode : Option Nat

/-- Python `str.strip()` (no argument): remove leading and trailing
whitespace. -/
def pyStrip (s : String) : String :=
  String.mk (((s.data.dropWhile Char.isWhitespace).reverse.dropWhile Char.isWhitespace).reverse)

/-- The platform-specific argument list built by `ping_host`
(Windows: `-n`/`-w` in milliseconds; otherwise `-c`/`-W` in seconds). -/
def pingArgs (env : Env) (host : String) (count timeout : Int) : List String :=
  if env.isWindows then
    ["ping", "-n", toString count, "-w", toString (timeout * 1000), host]
  else
    ["ping", "-c", toString count, "-W", toString timeout, host]

/-- `ping_host(host, count=4, timeout=2)`: returns `(reachable, output)`.
Missing utility, `subprocess.TimeoutExpired` and any other exception are all
caught and mapped to `(False, <reason>)`. -/
def ping_host (env : Env) (host : String) (count timeout : Int) : Bool × String :=
  if env.pingAvailable = false then (false, "ping utility not found")
  else
    match env.run (pingArgs env host count timeout) (max 10 (count * timeout + 5)) with
    | .completed rc out errs =>
        (rc == 0, pyStrip (out ++ (if errs ≠ "" then "\n" ++ errs else "")))
    | .timedOut => (false, "ping command timed out")
    | .err msg => (false, msg)

/-- The default of `ping`'s `count` parameter (`count: int = 1`). -/
def pingDefaultCount : Int := 1

/-- `ping(host, timeout=2, count=1)`: boolean reduction of `ping_host`.
The surrounding `try/except` can never fire since `ping_host` is total, and
`bool()` is the identity on the boolean first component. -/
def ping (env : Env) (host : String) (timeout count : Int) : Bool :=
  (ping_host env host count timeout).1

/-- The fixed ordered DNS-server list of `is_online`. -/
def dns_servers : List String := ["1.1.1.1", "8.8.8.8", "9.9.9.9"]

/-- The `for server in dns_servers` loop of `is_online`: `some true` on the
first successful ping, `none` when the loop falls through (the Python
function implicitly returns `None`). -/
def is_onlineGo (env : Env) (timeout : Int) : List String → Option Bool
  | [] => none
  | s :: rest =>
      if ping env s timeout 1 then some true
      else is_onlineGo env timeout rest

/-- The servers actually pinged by the `is_online` loop, in order: every
server up to and including the first success, or the whole list when every
probe fails.  (Instrumentation of the same loop as `is_onlineGo`.) -/
def is_onlineProbes (env : Env) (timeout : Int) : List String → List String
  | [] => []
  | s :: rest =>
      if ping env s timeout 1 then [s]
      else s :: is_onlineProbes env timeout rest

/-- `is_online(timeout=5)`.  The Python function has no explicit return after
the loop, so the fall-through case is the implicit `None`, modelled as
`none`. -/
def is_online (env : Env) (timeout : Int) : Option Bool :=
  is_onlineGo env timeout dns_servers

/-- The dotted-quad rendering of an IPv4 address (four decimal octets joined
by dots), as `getsockname()` reports it to Python. -/
def ipv4Render (q : Fin 256 × Fin 256 × Fin 256 × Fin 256) : String :=
  toString q.1.val ++ "." ++ toString q.2.1.val ++ "." ++ toString q.2.2.1.val ++ "."
    ++ toString q.2.2.2.val

/-- `get_local_ip()`: the bound local address of a UDP socket connected to
`("8.8.8.8", 80)`, or `"0.0.0.0"` when any step raised. -/
def get_local_ip (env : Env) : String :=
  match env.localIp with
  | some q => ipv4Render q
  | none => "0.0.0.0"

/-- The fixed ordered endpoint list of `get_public_ip`. -/
def endpoints : List String :=
  ["https://api.ipify.org?format=json", "https://ifconfig.me/ip", "https://ipinfo.io/ip"]

/-- Python `s.endswith(suffix)`: suffix test on the character sequence. -/
def pyEndsWith (s suffix : String) : Bool :=
  suffix.data.isSuffixOf s.data

/-- The `ip` value computed by `get_public_ip`'s loop body from a decoded
response `raw`: `data` is the stripped text; on the JSON endpoint (detected
by `url.endswith("format=json")`) `ip` comes from the `"ip"` field (with
`ip = data` when JSON parsing raised, and `ip = None` when the field is
absent or `None`), otherwise `ip = data`. -/
def extractIp (env : Env) (url raw : String) : Option String :=
  let data := pyStrip raw
  if pyEndsWith url "format=json" then
    match env.jsonIp data with
    | .parseError => some data
    | .missing => none
    | .value s => some s
  else some data

/-- The `for url in endpoints` loop of `get_public_ip`: a truthy (non-empty)
`ip` is returned (`if ip: return ip`), and a fetch failure (`except:
continue`) or a falsy `ip` moves on to the next endpoint. -/
def get_public_ipGo (env : Env) (timeout : Int) : List String → String
  | [] => "0.0.0.0"
  | url :: rest =>
      match env.fetch url timeout with
      | none => get_public_ipGo env timeout rest
      | some raw =>
          match extractIp env url raw with
          | some s => if s = "" then get_public_ipGo env timeout rest else s
          | none => get_public_ipGo env timeout rest

/-- `get_public_ip(timeout=5)`: first truthy extracted text wins, `"0.0.0.0"`
when every endpoint fails. -/
def get_public_ip (env : Env) (timeout : Int) : String :=
  get_public_ipGo env timeout endpoints

/-- Python `f"{n:x}"` for a non-negative `n`: lowercase hexadecimal digits,
no prefix (`Nat.toDigits 16` uses the same lowercase digit alphabet). -/
def hexStr (n : Nat) : String :=
  String.mk (Nat.toDigits 16 n)

/-- Python `f"{n:02x}"`: `hexStr` zero-padded on the left to width 2. -/
def hex2 (n : Nat) : String :=
  let s := hexStr n
  if s.length < 2 then "0" ++ s else s

/-- The shift amounts `range(40, -1, -8)` of `get_mac_address`. -/
def macShifts : List Nat := [40, 32, 24, 16, 8, 0]

/-- `get_mac_address()`: formats `uuid.getnode()` as six colon-joined
`%02x` octets, most-significant byte (shift 40) first; returns the zero MAC
when `uuid.getnode()` raised. -/
def get_mac_address (env : Env) : String :=
  match env.getnode with
  | some mac =>
      String.intercalate ":" (macShifts.map (fun ele => hex2 ((mac >>> ele) &&& 0xff)))
  | none => "00:00:00:00:00:00"

/-- `_tuple_is_port_open(host, port, timeout=1.0)`: a failed ping
short-circuits to `(False, "Host unreachable")`; otherwise a TCP connect is
attempted and both `except` branches yield the same closed tuple. -/
def tuple_is_port_open (env : Env) (host : String) (port timeout : Int) : Bool × String :=
  if ping env host timeout 1 = false then (false, "Host unreachable")
  else if env.connect host port timeout then (true, toString port ++ " is open")
  else (false, toString port ++ " is closed")

/-- `is_port_open(..., returntuple=False)` (the default): the boolean first
component of `_tuple_is_port_open`. -/
def is_port_open (env : Env) (host : String) (port timeout : Int) : Bool :=
  (tuple_is_port_open env host port timeout).1

/-- `is_port_open(..., returntuple=True)`: the full tuple. -/
def is_port_open_tuple (env : Env) (host : String) (port timeout : Int) : Bool × String :=
  tuple_is_port_open env host port timeout

/-- Python-dict assignment `d[k] = v`: overwrite in place when the key is
present, append otherwise (insertion order preserved). -/
def dictSet {κ β : Type} [DecidableEq κ] (d : List (κ × β)) (k : κ) (v : β) :
    List (κ × β) :=
  if d.any (fun p => p.1 = k) then
    d.map (fun p => if p.1 = k then (k, v) else p)
  else d ++ [(k, v)]

/-- The accumulator loop of `ping_list`. -/
def ping_listGo (env : Env) (timeout count : Int) :
    List String → List (String × Bool) → List (String × Bool)
  | [], acc => acc
  | h :: rest, acc =>
      ping_listGo env timeout count rest (dictSet acc h (ping env h timeout count))

/-- `ping_list(hosts, timeout=2, count=1)`: sequential map host ↦ `ping`. -/
def ping_list (env : Env) (hosts : List String) (timeout count : Int) :
    List (String × Bool) :=
  ping_listGo env timeout count hosts []

/-- Python `range(a, b)` over integers (empty when `b ≤ a`). -/
def intRange (a b : Int) : List Int :=
  (List.range (b - a).toNat).map (fun (i : Nat) => a + (i : Int))

/-- The port loop of `free_port_scanner`: collects the ports where
`is_port_open` is `false` (`resalt = not is_port_open(...)`), in order.  The
optional colored progress printing has no effect on the returned list. -/
def free_portGo (env : Env) (host : String) (timeout : Int) : List Int → List Int
  | [] => []
  | p :: rest =>
      if is_port_open env host p timeout then free_portGo env host timeout rest
      else p :: free_portGo env host timeout rest

/-- `free_port_scanner(host, start_port, end_port, timeout=1.0,
show_progress=False)`: scans `range(start_port, end_port + 1)`. -/
def free_port_scanner (env : Env) (host : String) (start_port end_port timeout : Int)
    (show_progress : Bool) : List Int :=
  let _ := show_progress
  free_portGo env host timeout (intRange start_port (end_port + 1))

/-- The accumulator loop of `scan_ports_list`. -/
def scan_portsGo (env : Env) (host : String) (timeout : Int) :
    List Int → List (Int × Bool) → List (Int × Bool)
  | [], acc => acc
  | p :: rest, acc =>
      scan_portsGo env host timeout rest (dictSet acc p (is_port_open env host p timeout))

/-- `scan_ports_list(host, ports, timeout=1.0)`: sequential map
port ↦ `is_port_open`. -/
def scan_ports_list (env : Env) (host : String) (ports : List Int) (timeout : Int) :
    List (Int × Bool) :=
  scan_portsGo env host timeout ports []

/-- Split a character sequence at every `'.'` (the groups do not contain the
separator; `n` dots yield `n + 1` groups). -/
def splitDot : List Char → List (List Char)
  | [] => [[]]
  | c :: rest =>
      if c = '.' then [] :: splitDot rest
      else
        match splitDot rest with
        | g :: gs => (c :: g) :: gs
        | [] => [[c]]

/-- The numeric value of a decimal digit sequence. -/
def digitsToNat (l : List Char) : Nat :=
  l.foldl (fun acc c => acc * 10 + (c.toNat - 48)) 0

/-- A non-empty decimal digit sequence denoting a value at most 255. -/
def okOctet (p : List Char) : Bool :=
  !p.isEmpty && p.all Char.isDigit && digitsToNat p ≤ 255

/-- Syntactically valid IPv4 dotted quad: four dot-separated decimal
components, each a non-empty digit string denoting a value at most 255.
(Spec-side predicate, used to state claim C1.) -/
def isIPv4 (s : String) : Bool :=
  (splitDot s.data).length == 4 && (splitDot s.data).all okOctet

/-- An endpoint that contributes nothing to `get_public_ip`: its fetch
raised, or the extracted `ip` is `None` or empty (falsy), so the loop moves
on to the next endpoint. -/
def endpointFails (env : Env) (t : Int) (url : String) : Prop :=
  env.fetch url t = none ∨
    ∃ raw, env.fetch url t = some raw ∧
      (extractIp env url raw = none ∨ extractIp env url raw = some "")

/-- Lowercase hexadecimal digit. -/
def isHexDigitLower (c : Char) : Bool :=
  c.isDigit || c = 'a' || c = 'b' || c = 'c' || c = 'd' || c = 'e' || c = 'f'

/-- A two-character string of lowercase hexadecimal digits. -/
def twoHex (s : String) : Bool :=
  match s.data with
  | [c, d] => isHexDigitLower c && isHexDigitLower d
  | _ => false

/-- A concrete environment where every facility succeeds: `ping` exits 0,
TCP connects succeed, and `uuid.getnode()` yields `0x112233445566`. -/
def sampleEnv : Env where
  pingAvailable := true
  isWindows := false
  run := fun _ _ => .completed 0 "ok" ""
  connect := fun _ _ _ => true
  localIp := some (192, 168, 1, 5)
  fetch := fun _ _ => none
  jsonIp := fun _ => .parseError
  getnode := some 0x112233445566

/-- An environment where the local-IP socket dance raised. -/
def envNoLocal : Env :=
  { sampleEnv with localIp := none }

/-- An environment with the `ping` utility missing, so every ping fails. -/
def envNoPing : Env :=
  { sampleEnv with pingAvailable := false }

/-- An environment whose first endpoint fails and whose second endpoint
(`ifconfig.me/ip`) answers with an IPv6 address, as it does for clients
connected over IPv6. -/
def envV6 : Env :=
  { sampleEnv with
    fetch := fun url _ =>
      if url = "https://ifconfig.me/ip" then some " 2a00:1450:4001:80e::200e " else none }

/-- An environment where the spawned ping process hits the
`subprocess.run` timeout. -/
def envPingTimeout : Env :=
  { sampleEnv with run := fun _ _ => .timedOut }

/-- An environment where only port 1001 accepts a TCP connection. -/
def envOnly1001 : Env :=
  { sampleEnv with connect := fun _ p _ => p == 1001 }

lemma ping_update_connect (env : Env) (c : String → Int → Int → Bool)
    (host : String) (t n : Int) :
    ping { env with connect := c } host t n = ping env host t n := rfl

set_option maxRecDepth 10000 in
set_option maxHeartbeats 1000000 in
lemma twoHex_hex2 : ∀ n, n < 256 → twoHex (hex2 n) = true := by decide

lemma and255_lt (m : Nat) : m &&& 0xff < 256 :=
  Nat.lt_succ_of_le (Nat.and_le_right)

lemma intercalate6 (a b c d e f : String) :
    String.intercalate ":" [a, b, c, d, e, f] =
      a ++ ":" ++ b ++ ":" ++ c ++ ":" ++ d ++ ":" ++ e ++ ":" ++ f := by
  simp [String.intercalate, String.intercalate.go]

lemma mem_dictSet {κ β : Type} [DecidableEq κ] (d : List (κ × β)) (k a : κ) (v b : β) :
    (a, b) ∈ dictSet d k v ↔ ((a, b) ∈ d ∧ a ≠ k) ∨ (a = k ∧ b = v) := by
  unfold dictSet
  by_cases hk : d.any (fun p => decide (p.1 = k)) = true
  · rw [if_pos hk]
    simp only [List.any_eq_true, decide_eq_true_eq] at hk
    obtain ⟨q, hq, hqk⟩ := hk
    rw [List.mem_map]
    constructor
    · rintro ⟨p, hp, hpe⟩
      by_cases hpk : p.1 = k
      · rw [if_pos hpk] at hpe
        injection hpe with h1 h2
        exact Or.inr ⟨h1.symm, h2.symm⟩
      · rw [if_neg hpk] at hpe
        subst hpe
        exact Or.inl ⟨hp, hpk⟩
    · rintro (⟨hm, hne⟩ | ⟨rfl, rfl⟩)
      · exact ⟨(a, b), hm, by simp [hne]⟩
      · exact ⟨q, hq, by simp [hqk]⟩
  · rw [if_neg hk]
    simp only [List.any_eq_true, decide_eq_true_eq, not_exists, not_and] at hk
    simp only [List.mem_append, List.mem_singleton, Prod.mk.injEq]
    constructor
    · rintro (hm | ⟨rfl, rfl⟩)
      · exact Or.inl ⟨hm, fun he => hk _ hm he⟩
      · exact Or.inr ⟨rfl, rfl⟩
    · rintro (⟨hm, _⟩ | ⟨rfl, rfl⟩)
      · exact Or.inl hm
      · exact Or.inr ⟨rfl, rfl⟩

lemma ping_listGo_mem (env : Env) (t c : Int) (hs : List String)
    (acc : List (String × Bool)) (a : String) (b : Bool) :
    (a, b) ∈ ping_listGo env t c hs acc ↔
      (a ∈ hs ∧ b = ping env a t c) ∨ (a ∉ hs ∧ (a, b) ∈ acc) := by
  induction hs generalizing acc with
  | nil => simp [ping_listGo]
  | cons h rest ih =>
      rw [ping_listGo, ih, mem_dictSet]
      by_cases hah : a = h
      · subst hah
        simp only [List.mem_cons, true_or, true_and, not_or]
        tauto
      · simp only [List.mem_cons]
        constructor
        · rintro (⟨hr, rfl⟩ | ⟨hnr, ⟨hacc, _⟩ | ⟨he, _⟩⟩)
          · exact Or.inl ⟨Or.inr hr, rfl⟩
          · exact Or.inr ⟨by tauto, hacc⟩
          · exact absurd he hah
        · rintro (⟨hr | hr, rfl⟩ | ⟨hnr, hacc⟩)
          · exact absurd hr hah
          · exact Or.inl ⟨hr, rfl⟩
          · exact Or.inr ⟨by tauto, Or.inl ⟨hacc, hah⟩⟩

lemma scan_portsGo_mem (env : Env) (host : String) (t : Int) (ps : List Int)
    (acc : List (Int × Bool)) (a : Int) (b : Bool) :
    (a, b) ∈ scan_portsGo env host t ps acc ↔
      (a ∈ ps ∧ b = is_port_open env host a t) ∨ (a ∉ ps ∧ (a, b) ∈ acc) := by
  induction ps generalizing acc with
  | nil => simp [scan_portsGo]
  | cons p rest ih =>
      rw [scan_portsGo, ih, mem_dictSet]
      by_cases hap : a = p
      · subst hap
        simp only [List.mem_cons, true_or, true_and, not_or]
        tauto
      · simp only [List.mem_cons]
        constructor
        · rintro (⟨hr, rfl⟩ | ⟨hnr, ⟨hacc, _⟩ | ⟨he, _⟩⟩)
          · exact Or.inl ⟨Or.inr hr, rfl⟩
          · exact Or.inr ⟨by tauto, hacc⟩
          · exact absurd he hap
        · rintro (⟨hr | hr, rfl⟩ | ⟨hnr, hacc⟩)
          · exact absurd hr hap
          · exact Or.inl ⟨hr, rfl⟩
          · exact Or.inr ⟨by tauto, Or.inl ⟨hacc, hap⟩⟩

lemma mem_intRange (a b p : Int) : p ∈ intRange a b ↔ a ≤ p ∧ p < b := by
  unfold intRange
  rw [List.mem_map]
  constructor
  · rintro ⟨i, hi, rfl⟩
    rw [List.mem_range] at hi
    omega
  · rintro ⟨h1, h2⟩
    refine ⟨(p - a).toNat, ?_, by omega⟩
    rw [List.mem_range]
    omega

lemma free_portGo_eq (env : Env) (host : String) (t : Int) (l : List Int) :
    free_portGo env host t l = l.filter (fun p => !is_port_open env host p t) := by
  induction l with
  | nil => rfl
  | cons p rest ih =>
      by_cases h : is_port_open env host p t <;>
        simp [free_portGo, h, ih, List.filter_cons]

lemma get_public_ipGo_cons (env : Env) (t : Int) (url : String) (rest : List String) :
    get_public_ipGo env t (url :: rest) =
      match env.fetch url t with
      | none => get_public_ipGo env t rest
      | some raw =>
          match extractIp env url raw with
          | some s => if s = "" then get_public_ipGo env t rest else s
          | none => get_public_ipGo env t rest := rfl

lemma splitDot_no_dot (g : List Char) (h : '.' ∉ g) : splitDot g = [g] := by
  induction g with
  | nil => rfl
  | cons c g ih =>
      rw [List.mem_cons, not_or] at h
      obtain ⟨hc, hg⟩ := h
      rw [splitDot, if_neg (Ne.symm hc), ih hg]

lemma splitDot_append (g rest : List Char) (h : '.' ∉ g) :
    splitDot (g ++ '.' :: rest) = g :: splitDot rest := by
  induction g with
  | nil => simp [splitDot]
  | cons c g ih =>
      rw [List.mem_cons, not_or] at h
      obtain ⟨hc, hg⟩ := h
      rw [List.cons_append, splitDot, if_neg (Ne.symm hc), ih hg]

set_option maxRecDepth 10000 in
set_option maxHeartbeats 1000000 in
lemma okOctet_toString : ∀ n, n < 256 → okOctet (toString n).data = true := by decide

set_option maxRecDepth 10000 in
set_option maxHeartbeats 1000000 in
lemma octet_no_dot : ∀ n : Nat, n < 256 → '.' ∉ (toString n).data := by decide

lemma dot_data : (".": String).data = ['.'] := rfl

lemma isIPv4_render (q : Fin 256 × Fin 256 × Fin 256 × Fin 256) :
    isIPv4 (ipv4Render q) = true := by
  obtain ⟨a, b, c, d⟩ := q
  unfold isIPv4 ipv4Render
  simp only [String.data_append, dot_data, List.singleton_append, List.cons_append,
    List.append_assoc, List.nil_append]
  rw [splitDot_append _ _ (octet_no_dot _ a.isLt),
      splitDot_append _ _ (octet_no_dot _ b.isLt),
      splitDot_append _ _ (octet_no_dot _ c.isLt),
      splitDot_no_dot _ (octet_no_dot _ d.isLt)]
  simp [okOctet_toString _ a.isLt, okOctet_toString _ b.isLt,
        okOctet_toString _ c.isLt, okOctet_toString _ d.isLt]

lemma get_public_ipGo_first (env : Env) (t : Int) (urls : List String) :
    ((∀ u ∈ urls, endpointFails env t u) ∧ get_public_ipGo env t urls = "0.0.0.0") ∨
    (∃ pre url rest, urls = pre ++ url :: rest ∧
      (∀ u ∈ pre, endpointFails env t u) ∧
      ∃ raw, env.fetch url t = some raw ∧
        extractIp env url raw = some (get_public_ipGo env t urls) ∧
        get_public_ipGo env t urls ≠ "") := by
  induction urls with
  | nil => exact Or.inl ⟨by simp, rfl⟩
  | cons url rest ih =>
      rw [get_public_ipGo_cons]
      split
      · rename_i hf
        rcases ih with ⟨hall, hres⟩ | ⟨pre, u, rs, hsplit, hpre, raw, hraw, hext, hne⟩
        · refine Or.inl ⟨?_, hres⟩
          intro x hx
          rcases List.mem_cons.mp hx with rfl | hx
          · exact Or.inl hf
          · exact hall x hx
        · refine Or.inr ⟨url :: pre, u, rs, by rw [List.cons_append, hsplit], ?_,
            raw, hraw, hext, hne⟩
          intro x hx
          rcases List.mem_cons.mp hx with rfl | hx
          · exact Or.inl hf
          · exact hpre x hx
      · rename_i raw hf
        split
        · rename_i v hx
          split
          · rename_i he
            subst he
            rcases ih with ⟨hall, hres⟩ | ⟨pre, u, rs, hsplit, hpre, raw2, hraw2, hext, hne⟩
            · refine Or.inl ⟨?_, hres⟩
              intro x hxm
              rcases List.mem_cons.mp hxm with rfl | hxm
              · exact Or.inr ⟨raw, hf, Or.inr hx⟩
              · exact hall x hxm
            · refine Or.inr ⟨url :: pre, u, rs, by rw [List.cons_append, hsplit], ?_,
                raw2, hraw2, hext, hne⟩
              intro x hxm
              rcases List.mem_cons.mp hxm with rfl | hxm
              · exact Or.inr ⟨raw, hf, Or.inr hx⟩
              · exact hpre x hxm
          · rename_i he
            exact Or.inr ⟨[], url, rest, rfl, by simp, raw, hf, hx, he⟩
        · rename_i hx
          rcases ih with ⟨hall, hres⟩ | ⟨pre, u, rs, hsplit, hpre, raw2, hraw2, hext, hne⟩
          · refine Or.inl ⟨?_, hres⟩
            intro x hxm
            rcases List.mem_cons.mp hxm with rfl | hxm
            · exact Or.inr ⟨raw, hf, Or.inl hx⟩
            · exact hall x hxm
          · refine Or.inr ⟨url :: pre, u, rs, by rw [List.cons_append, hsplit], ?_,
              raw2, hraw2, hext, hne⟩
            intro x hxm
            rcases List.mem_cons.mp hxm with rfl | hxm
            · exact Or.inr ⟨raw, hf, Or.inl hx⟩
            · exact hpre x hxm

/-- Claim C7: `ping_host` never raises (it is a total function of the
environment); when the process completes it reports reachable exactly when
the exit code is zero, and on a missing `ping` utility, a process timeout,
or any other exception it returns `(false, reason-text)`. -/
theorem C7_ping_host_total_cases (env : Env) (host : String) (count timeout : Int) :
    (env.pingAvailable = false →
      ping_host env host count timeout = (false, "ping utility not found")) ∧
    (∀ rc out errs, env.pingAvailable = true →
      env.run (pingArgs env host count timeout) (max 10 (count * timeout + 5))
          = .completed rc out errs →
      ((ping_host env host count timeout).1 = true ↔ rc = 0)) ∧
    (env.pingAvailable = true →
      env.run (pingArgs env host count timeout) (max 10 (count * timeout + 5)) = .timedOut →
      ping_host env host count timeout = (false, "ping command timed out")) ∧
    (∀ msg, env.pingAvailable = true →
      env.run (pingArgs env host count timeout) (max 10 (count * timeout + 5)) = .err msg →
      ping_host env host count timeout = (false, msg)) := by
  refine ⟨?_, ?_, ?_, ?_⟩
  · intro h
    simp [ping_host, h]
  · intro rc out errs hav hrun
    simp [ping_host, hav, hrun]
  · intro hav hrun
    simp [ping_host, hav, hrun]
  · intro msg hav hrun
    simp [ping_host, hav, hrun]

theorem C7_witness : (ping_host sampleEnv "example.com" 4 2).1 = true ↔ (0 : Int) = 0 :=
  (C7_ping_host_total_cases sampleEnv "example.com" 4 2).2.1 0 "ok" "" rfl rfl

/-- Claim C6: `ping` equals the boolean first component of `ping_host`
(called with `ping`'s `count`, which defaults to 1), and every error arising
in the probe is swallowed into `false` rather than an exception. -/
theorem C6_ping_refines_ping_host (env : Env) (host : String) (timeout count : Int) :
    ping env host timeout count = (ping_host env host count timeout).1 ∧
    pingDefaultCount = 1 ∧
    (env.pingAvailable = false → ping env host timeout count = false) ∧
    (env.run (pingArgs env host count timeout) (max 10 (count * timeout + 5)) = .timedOut →
      ping env host timeout count = false) ∧
    (∀ msg,
      env.run (pingArgs env host count timeout) (max 10 (count * timeout + 5)) = .err msg →
      ping env host timeout count = false) := by
  refine ⟨rfl, rfl, ?_, ?_, ?_⟩
  · intro h
    simp [ping, ping_host, h]
  · intro h
    cases hav : env.pingAvailable <;> simp [ping, ping_host, h, hav]
  · intro msg h
    cases hav : env.pingAvailable <;> simp [ping, ping_host, h, hav]

theorem C6_witness : ping envPingTimeout "h" 2 1 = false :=
  (C6_ping_refines_ping_host envPingTimeout "h" 2 1).2.2.2.1 rfl

/-- Claim C2: when the ping probe of the host fails, `is_port_open(host,
port, returntuple=True)` returns exactly `(false, "Host unreachable")`, and
this holds for every behavior of the TCP-connect facility: no connection
attempt can influence the result, regardless of the actual port state. -/
theorem C2_unreachable_short_circuits (env : Env) (c : String → Int → Int → Bool)
    (host : String) (port timeout : Int)
    (h : ping env host timeout 1 = false) :
    is_port_open_tuple { env with connect := c } host port timeout
      = (false, "Host unreachable") := by
  unfold is_port_open_tuple tuple_is_port_open
  rw [ping_update_connect, h]
  simp

theorem C2_witness :
    is_port_open_tuple { envNoPing with connect := fun _ _ _ => true } "h" 80 1
      = (false, "Host unreachable") :=
  C2_unreachable_short_circuits envNoPing (fun _ _ _ => true) "h" 80 1 rfl

/-- Claim C10: the boolean form of `is_port_open` (the `returntuple=False`
default) is exactly the first component of the tuple form
(`returntuple=True`); both are computed from the same underlying
`_tuple_is_port_open` probe and can never disagree. -/
theorem C10_bool_eq_tuple_fst (env : Env) (host : String) (port timeout : Int) :
    is_port_open env host port timeout = (is_port_open_tuple env host port timeout).1 := rfl

/-- Claim C3: `is_online` probes the fixed ordered list `1.1.1.1`, `8.8.8.8`,
`9.9.9.9` and returns `True` on the first server whose ping succeeds, not
probing the rest; when every probe fails it falls through with no explicit
return value (the implicit `None`, modelled as `none`). -/
theorem C3_is_online_first_success (env : Env) (t : Int) :
    (ping env "1.1.1.1" t 1 = true →
      is_online env t = some true ∧
      is_onlineProbes env t dns_servers = ["1.1.1.1"]) ∧
    (ping env "1.1.1.1" t 1 = false → ping env "8.8.8.8" t 1 = true →
      is_online env t = some true ∧
      is_onlineProbes env t dns_servers = ["1.1.1.1", "8.8.8.8"]) ∧
    (ping env "1.1.1.1" t 1 = false → ping env "8.8.8.8" t 1 = false →
      ping env "9.9.9.9" t 1 = true →
      is_online env t = some true ∧
      is_onlineProbes env t dns_servers = ["1.1.1.1", "8.8.8.8", "9.9.9.9"]) ∧
    ((∀ s ∈ dns_servers, ping env s t 1 = false) →
      is_online env t = none ∧
      is_onlineProbes env t dns_servers = dns_servers) := by
  refine ⟨?_, ?_, ?_, ?_⟩
  · intro h1
    simp [is_online, is_onlineGo, is_onlineProbes, dns_servers, h1]
  · intro h1 h2
    simp [is_online, is_onlineGo, is_onlineProbes, dns_servers, h1, h2]
  · intro h1 h2 h3
    simp [is_online, is_onlineGo, is_onlineProbes, dns_servers, h1, h2, h3]
  · intro hall
    have h1 := hall "1.1.1.1" (by simp [dns_servers])
    have h2 := hall "8.8.8.8" (by simp [dns_servers])
    have h3 := hall "9.9.9.9" (by simp [dns_servers])
    simp [is_online, is_onlineGo, is_onlineProbes, dns_servers, h1, h2, h3]

theorem C3_witness :
    is_online sampleEnv 5 = some true ∧
    is_onlineProbes sampleEnv 5 dns_servers = ["1.1.1.1"] :=
  (C3_is_online_first_success sampleEnv 5).1 rfl

/-- Claim C4: `get_mac_address` always returns a string of exactly six
colon-separated two-digit lowercase hexadecimal groups, with the most
significant byte (shift 40) of the 48-bit hardware identifier first, and
returns the zero MAC `"00:00:00:00:00:00"` on failure. -/
theorem C4_mac_format (env : Env) :
    (∃ g1 g2 g3 g4 g5 g6, twoHex g1 = true ∧ twoHex g2 = true ∧ twoHex g3 = true ∧
      twoHex g4 = true ∧ twoHex g5 = true ∧ twoHex g6 = true ∧
      get_mac_address env =
        g1 ++ ":" ++ g2 ++ ":" ++ g3 ++ ":" ++ g4 ++ ":" ++ g5 ++ ":" ++ g6) ∧
    (∀ mac, env.getnode = some mac →
      get_mac_address env =
        hex2 ((mac >>> 40) &&& 0xff) ++ ":" ++ hex2 ((mac >>> 32) &&& 0xff) ++ ":" ++
        hex2 ((mac >>> 24) &&& 0xff) ++ ":" ++ hex2 ((mac >>> 16) &&& 0xff) ++ ":" ++
        hex2 ((mac >>> 8) &&& 0xff) ++ ":" ++ hex2 ((mac >>> 0) &&& 0xff)) ∧
    (env.getnode = none → get_mac_address env = "00:00:00:00:00:00") := by
  have key : ∀ mac, env.getnode = some mac →
      get_mac_address env =
        hex2 ((mac >>> 40) &&& 0xff) ++ ":" ++ hex2 ((mac >>> 32) &&& 0xff) ++ ":" ++
        hex2 ((mac >>> 24) &&& 0xff) ++ ":" ++ hex2 ((mac >>> 16) &&& 0xff) ++ ":" ++
        hex2 ((mac >>> 8) &&& 0xff) ++ ":" ++ hex2 ((mac >>> 0) &&& 0xff) := by
    intro mac h
    simp only [get_mac_address, h, macShifts, List.map_cons, List.map_nil]
    rw [intercalate6]
  refine ⟨?_, key, ?_⟩
  · cases hg : env.getnode with
    | none =>
        refine ⟨"00", "00", "00", "00", "00", "00", by decide, by decide, by decide,
          by decide, by decide, by decide, ?_⟩
        simp only [get_mac_address, hg]
        decide
    | some mac =>
        exact ⟨_, _, _, _, _, _,
          twoHex_hex2 _ (and255_lt _), twoHex_hex2 _ (and255_lt _),
          twoHex_hex2 _ (and255_lt _), twoHex_hex2 _ (and255_lt _),
          twoHex_hex2 _ (and255_lt _), twoHex_hex2 _ (and255_lt _),
          key mac hg⟩
  · intro h
    simp [get_mac_address, h]

theorem C4_witness :
    get_mac_address sampleEnv =
      hex2 ((0x112233445566 >>> 40) &&& 0xff) ++ ":" ++ hex2 ((0x112233445566 >>> 32) &&& 0xff) ++ ":" ++
      hex2 ((0x112233445566 >>> 24) &&& 0xff) ++ ":" ++ hex2 ((0x112233445566 >>> 16) &&& 0xff) ++ ":" ++
      hex2 ((0x112233445566 >>> 8) &&& 0xff) ++ ":" ++ hex2 ((0x112233445566 >>> 0) &&& 0xff) :=
  (C4_mac_format sampleEnv).2.1 0x112233445566 rfl

/-- Claim C5: `free_port_scanner` tests each port of the inclusive range
`[start_port, end_port]` sequentially and returns exactly those ports of the
range for which `is_port_open` reported `false`; in particular the scan of
1000..1002 returns a subset of `{1000, 1001, 1002}`. -/
theorem C5_free_port_scanner_filter (env : Env) (host : String)
    (start_port end_port timeout : Int) (show_progress : Bool) :
    free_port_scanner env host start_port end_port timeout show_progress
      = (intRange start_port (end_port + 1)).filter
          (fun p => !is_port_open env host p timeout) ∧
    (∀ p, p ∈ free_port_scanner env host start_port end_port timeout show_progress ↔
      (start_port ≤ p ∧ p ≤ end_port ∧ is_port_open env host p timeout = false)) ∧
    (∀ p, p ∈ free_port_scanner env host 1000 1002 timeout show_progress →
      p = 1000 ∨ p = 1001 ∨ p = 1002) := by
  have hfil : ∀ (a b : Int), free_port_scanner env host a b timeout show_progress
      = (intRange a (b + 1)).filter (fun p => !is_port_open env host p timeout) := by
    intro a b
    unfold free_port_scanner
    exact free_portGo_eq env host timeout _
  have hmem : ∀ (a b p : Int),
      p ∈ free_port_scanner env host a b timeout show_progress ↔
        (a ≤ p ∧ p ≤ b ∧ is_port_open env host p timeout = false) := by
    intro a b p
    rw [hfil, List.mem_filter, mem_intRange]
    constructor
    · rintro ⟨⟨h1, h2⟩, h3⟩
      exact ⟨h1, by omega, by simpa using h3⟩
    · rintro ⟨h1, h2, h3⟩
      exact ⟨⟨h1, by omega⟩, by simp [h3]⟩
  refine ⟨hfil _ _, hmem _ _, ?_⟩
  intro p hp
  have h := (hmem 1000 1002 p).mp hp
  omega

theorem C5_witness : (1000 : Int) = 1000 ∨ (1000 : Int) = 1001 ∨ (1000 : Int) = 1002 :=
  (C5_free_port_scanner_filter envOnly1001 "h" 1000 1002 1 false).2.2 1000 (by decide)

/-- Claim C8: `ping_list` returns a mapping whose keys are exactly the input
hosts, each mapped to the boolean result of `ping(host, timeout, count)`
computed by the sequential loop. -/
theorem C8_ping_list_mapping (env : Env) (hosts : List String) (timeout count : Int) :
    ∀ h b, (h, b) ∈ ping_list env hosts timeout count ↔
      (h ∈ hosts ∧ b = ping env h timeout count) := by
  intro h b
  rw [ping_list, ping_listGo_mem]
  simp

theorem C8_witness : ("a", true) ∈ ping_list sampleEnv ["a", "b"] 2 1 :=
  (C8_ping_list_mapping sampleEnv ["a", "b"] 2 1 "a" true).mpr ⟨by decide, by decide⟩

/-- Claim C9: `scan_ports_list` returns a mapping whose keys are exactly the
input ports, each mapped to the result of `is_port_open(host, port,
timeout)` computed by the sequential loop. -/
theorem C9_scan_ports_list_mapping (env : Env) (host : String) (ports : List Int)
    (timeout : Int) :
    ∀ p b, (p, b) ∈ scan_ports_list env host ports timeout ↔
      (p ∈ ports ∧ b = is_port_open env host p timeout) := by
  intro p b
  rw [scan_ports_list, scan_portsGo_mem]
  simp

theorem C9_witness : ((22 : Int), false) ∈ scan_ports_list envNoPing "h" [22, 80, 443] 1 :=
  (C9_scan_ports_list_mapping envNoPing "h" [22, 80, 443] 1 22 false).mpr
    ⟨by decide, by decide⟩

/-- Claim C1 is false as stated: in the execution `envV6` the first endpoint
fails and `ifconfig.me/ip` answers with an IPv6 address (as it does for a
client connected over IPv6); `get_public_ip` returns that text verbatim,
which is neither a syntactically valid IPv4 dotted quad nor the sentinel
`"0.0.0.0"`.  The code performs no validation of the endpoint's text. -/
theorem C1_counterexample :
    get_public_ip envV6 5 = "2a00:1450:4001:80e::200e" ∧
    isIPv4 (get_public_ip envV6 5) = false ∧
    get_public_ip envV6 5 ≠ "0.0.0.0" := by
  refine ⟨by decide, by decide, by decide⟩

/-- Claim C1 amended: `get_local_ip` and `get_public_ip` never raise (they
are total functions of the environment).  `get_local_ip` always returns a
syntactically valid IPv4 dotted-quad string (the dotted-quad rendering of
the socket's bound `AF_INET` address) or the sentinel `"0.0.0.0"` when the
socket raised.  `get_public_ip` returns either `"0.0.0.0"` (when every
endpoint fails or yields an empty extraction) or the first non-empty text
extracted from an endpoint response, every earlier endpoint having failed;
that text is not validated, so it need not be an IPv4 dotted quad. -/
theorem C1_amended_ips (env : Env) (t : Int) :
    isIPv4 (get_local_ip env) = true ∧
    (env.localIp = none → get_local_ip env = "0.0.0.0") ∧
    (((∀ url ∈ endpoints, endpointFails env t url) ∧ get_public_ip env t = "0.0.0.0") ∨
      (∃ pre url rest, endpoints = pre ++ url :: rest ∧
        (∀ u ∈ pre, endpointFails env t u) ∧
        ∃ raw, env.fetch url t = some raw ∧
          extractIp env url raw = some (get_public_ip env t) ∧
          get_public_ip env t ≠ "")) := by
  refine ⟨?_, ?_, get_public_ipGo_first env t endpoints⟩
  · cases h : env.localIp with
    | none =>
        have he : get_local_ip env = "0.0.0.0" := by simp [get_local_ip, h]
        rw [he]
        decide
    | some q =>
        have he : get_local_ip env = ipv4Render q := by simp [get_local_ip, h]
        rw [he]
        exact isIPv4_render q
  · intro h
    simp [get_local_ip, h]

theorem C1_witness : get_local_ip envNoLocal = "0.0.0.0" :=
  (C1_amended_ips envNoLocal 5).2.1 rfl
